import Mathlib

/-!
Verification of the Grow_Room_2025 measurement-to-metric pipeline
(ads1115_logger.py and bme280_logger.py) against its specification.

Modelling conventions.  Python floats are idealized as exact numbers
(ℚ for the soil-moisture path, ℝ for the VPD path, which needs exp)
extended with the IEEE special values nan, +inf and -inf; arithmetic on
finite values is exact rather than rounded to 53-bit precision, while the
special values propagate exactly as CPython float arithmetic propagates
them.  CPython raises ZeroDivisionError on x / 0.0 for every float x
(including nan and ±inf), and math.exp raises OverflowError when its
result would exceed the largest double, i.e. when its (finite) argument
exceeds log(1.7976931348623157e308) = 709.78271...; both exceptions are
modelled with Except, and a function whose Python body catches them and
returns None is modelled as returning an Option.  Python round(x, n) is
modelled as round-half-to-even of 10^n * x divided by 10^n, and round
applied to nan or ±inf returns its argument unchanged, as in CPython.
-/

/-- Idealized Python float: an exact finite value of type α, or one of the
IEEE special values. -/
inductive PF (α : Type) where
  | fin (x : α)
  | inf
  | ninf
  | nan
deriving DecidableEq

section PFOps

variable {α : Type} [LinearOrderedField α]

/-- Python float negation. -/
def pneg : PF α → PF α
  | .fin x => .fin (-x)
  | .inf => .ninf
  | .ninf => .inf
  | .nan => .nan

/-- Python float addition (IEEE special-value propagation, exact on finite
values). -/
def padd : PF α → PF α → PF α
  | .nan, _ => .nan
  | _, .nan => .nan
  | .fin x, .fin y => .fin (x + y)
  | .fin _, .inf => .inf
  | .fin _, .ninf => .ninf
  | .inf, .fin _ => .inf
  | .inf, .inf => .inf
  | .inf, .ninf => .nan
  | .ninf, .fin _ => .ninf
  | .ninf, .inf => .nan
  | .ninf, .ninf => .ninf

/-- Python float subtraction. -/
def psub (a b : PF α) : PF α := padd a (pneg b)

/-- Python float multiplication. -/
def pmul : PF α → PF α → PF α
  | .nan, _ => .nan
  | _, .nan => .nan
  | .fin x, .fin y => .fin (x * y)
  | .fin x, .inf => if 0 < x then .inf else if x < 0 then .ninf else .nan
  | .fin x, .ninf => if 0 < x then .ninf else if x < 0 then .inf else .nan
  | .inf, .fin y => if 0 < y then .inf else if y < 0 then .ninf else .nan
  | .ninf, .fin y => if 0 < y then .ninf else if y < 0 then .inf else .nan
  | .inf, .inf => .inf
  | .inf, .ninf => .ninf
  | .ninf, .inf => .ninf
  | .ninf, .ninf => .inf

/-- Python float division.  CPython raises ZeroDivisionError whenever the
divisor is (finite) zero, for every dividend including nan and infinities;
division by nan or an infinity never raises. -/
def pdiv (a b : PF α) : Except Unit (PF α) :=
  match b with
  | .nan => .ok .nan
  | .inf =>
    .ok (match a with
      | .fin _ => .fin 0
      | _ => .nan)
  | .ninf =>
    .ok (match a with
      | .fin _ => .fin 0
      | _ => .nan)
  | .fin y =>
    if y = 0 then .error () else
      .ok (match a with
        | .fin x => .fin (x / y)
        | .inf => if 0 < y then .inf else .ninf
        | .ninf => if 0 < y then .ninf else .inf
        | .nan => .nan)

/-- Python float less-than comparison; any comparison with nan is false. -/
def pyLt : PF α → PF α → Bool
  | .fin x, .fin y => decide (x < y)
  | .fin _, .inf => true
  | .ninf, .fin _ => true
  | .ninf, .inf => true
  | _, _ => false

/-- Python builtin min over two arguments: keeps the first argument and
replaces it iff the second compares strictly smaller (so min(a, nan) = a). -/
def pymin (a b : PF α) : PF α := if pyLt b a then b else a

/-- Python builtin max over two arguments: keeps the first argument and
replaces it iff the second compares strictly greater (so max(a, nan) = a). -/
def pymax (a b : PF α) : PF α := if pyLt a b then b else a

end PFOps

section Rounding

variable {α : Type} [LinearOrderedField α] [FloorRing α]

/-- Round half to even to an integer, the tie rule of Python round. -/
def rhe (x : α) : ℤ :=
  if 2 * (x - (⌊x⌋ : α)) < 1 then ⌊x⌋
  else if 1 < 2 * (x - (⌊x⌋ : α)) then ⌊x⌋ + 1
  else if ⌊x⌋ % 2 = 0 then ⌊x⌋ else ⌊x⌋ + 1

/-- The finite value produced by Python round(x, n). -/
def pyRoundVal (n : ℕ) (x : α) : α := ((rhe ((10 ^ n : α) * x) : ℤ) : α) / 10 ^ n

/-- Python round(x, n) on a float: round half to even at n decimal digits;
nan and the infinities are returned unchanged. -/
def pyRound (n : ℕ) : PF α → PF α
  | .fin x => .fin (pyRoundVal n x)
  | .inf => .inf
  | .ninf => .ninf
  | .nan => .nan

end Rounding

/-- Embedding of calculate_moisture_percent (ads1115_logger.py, lines
66-82): computes ((dry - voltage) / (dry - wet)) * 100, clamps the result
into [0, 100] by max(0, min(100, _)), rounds to 1 decimal place, and
returns None when the computation raises (only the division can raise). -/
def calculate_moisture_percent (voltage dry_voltage wet_voltage : PF ℚ) :
    Option (PF ℚ) :=
  match pdiv (psub dry_voltage voltage) (psub dry_voltage wet_voltage) with
  | .error _ => none
  | .ok q =>
    some (pyRound 1 (pymax (.fin 0) (pymin (.fin 100) (pmul q (.fin 100)))))

/-- The four analog input slots of the ADS1115. -/
inductive Chan where
  | A0
  | A1
  | A2
  | A3
deriving DecidableEq

/-- One entry of the SENSOR_CONFIG table (ads1115_logger.py, lines 35-64). -/
structure SensorCfg where
  enabled : Bool
  name : String
  location : String
  dry_voltage : PF ℚ
  wet_voltage : PF ℚ

/-- The SENSOR_CONFIG module constant of ads1115_logger.py: channels A0 and
A1 enabled with the calibration pair (2.8, 1.2), channels A2 and A3
disabled. -/
def SENSOR_CONFIG : Chan → SensorCfg
  | .A0 => ⟨true, "soil_moisture_1", "pot_1", .fin (28/10), .fin (12/10)⟩
  | .A1 => ⟨true, "soil_moisture_2", "pot_2", .fin (28/10), .fin (12/10)⟩
  | .A2 => ⟨false, "unused_3", "unused", .fin (28/10), .fin (12/10)⟩
  | .A3 => ⟨false, "unused_4", "unused", .fin (28/10), .fin (12/10)⟩

/-- The per-channel record that read_soil_sensors stores in its data dict
(ads1115_logger.py, lines 149-154). -/
structure ChannelData where
  name : String
  location : String
  voltage : PF ℚ
  moisture_percent : Option (PF ℚ)
deriving DecidableEq

/-- The iteration order of the channels dict in read_soil_sensors
(insertion order A0, A1, A2, A3). -/
def channelOrder : List Chan := [.A0, .A1, .A2, .A3]

/-- The body of the for loop of read_soil_sensors over a list of channels:
for each enabled channel, read its voltage (the device read may raise a
device fault, modelled as Except.error, which aborts the whole traversal
because the try block of read_soil_sensors wraps the entire loop), compute
the moisture percentage, and record name, location, the voltage rounded to
3 decimal places, and the moisture value.  The config table is passed
explicitly; the Python code reads the module global SENSOR_CONFIG. -/
def readLoop (cfgOf : Chan → SensorCfg) (readV : Chan → Except Unit (PF ℚ)) :
    List Chan → Except Unit (List (Chan × ChannelData))
  | [] => .ok []
  | c :: rest =>
    let config := cfgOf c
    if config.enabled then
      match readV c with
      | .error e => .error e
      | .ok voltage =>
        match readLoop cfgOf readV rest with
        | .error e => .error e
        | .ok tail =>
          .ok ((c, ⟨config.name, config.location, pyRound 3 voltage,
            calculate_moisture_percent voltage config.dry_voltage
              config.wet_voltage⟩) :: tail)
    else readLoop cfgOf readV rest

/-- Embedding of read_soil_sensors (ads1115_logger.py, lines 119-159): the
whole channel loop sits inside one try block, so any device fault makes the
function return None; otherwise it returns the per-channel data dict. -/
def read_soil_sensors (cfgOf : Chan → SensorCfg)
    (readV : Chan → Except Unit (PF ℚ)) :
    Option (List (Chan × ChannelData)) :=
  match readLoop cfgOf readV channelOrder with
  | .ok data => some data
  | .error _ => none

/-- One InfluxDB point: measurement name, tag set, field set.  A field
value of none is an explicit null (Python None) in the submitted JSON
body, not an omitted key. -/
structure Observation where
  measurement : String
  tags : List (String × String)
  fields : List (String × Option (PF ℚ))
deriving DecidableEq

/-- The channel tag strings used in the json body. -/
def chanName : Chan → String
  | .A0 => "A0"
  | .A1 => "A1"
  | .A2 => "A2"
  | .A3 => "A3"

/-- The json_body list built by send_to_influxdb (ads1115_logger.py, lines
164-180): one point per sensor, iterating the data dict in insertion
order; the moisture_percent field is the stored value when it is not None
and an explicit null otherwise. -/
def soil_json_body (data : List (Chan × ChannelData)) : List Observation :=
  data.map fun e =>
    { measurement := "soil_moisture",
      tags := [("location", "growroom"), ("sensor", e.2.name),
               ("pot", e.2.location), ("channel", chanName e.1)],
      fields := [("voltage", some e.2.voltage),
                 ("moisture_percent", e.2.moisture_percent)] }

/-- Embedding of send_to_influxdb (ads1115_logger.py, lines 161-186): the
write_points transport call may raise (Except.error); the surrounding try
block converts any such fault into the return value False, so the function
itself is total and never raises into its caller. -/
def send_to_influxdb (write_points : List Observation → Except Unit Unit)
    (data : List (Chan × ChannelData)) : Bool :=
  match write_points (soil_json_body data) with
  | .ok _ => true
  | .error _ => false

/-- The observable outcome of one iteration of the main loop of
ads1115_logger.py (lines 211-233): either a batch was written, or the send
failed (the loop prints a failure message and keeps running), or the read
failed (sensor_data was None or empty, the loop prints a failure message
and keeps running). -/
inductive CycleOutcome where
  | wrote (obs : List Observation)
  | sendFailed
  | readFailed
deriving DecidableEq

/-- The observations actually written in a cycle. -/
def writtenObs : CycleOutcome → List Observation
  | .wrote obs => obs
  | _ => []

/-- One iteration of the main loop body of ads1115_logger.py: read the
sensors; a None or empty (falsy) result logs a read failure; otherwise
send to InfluxDB and log the outcome.  No branch terminates the loop. -/
def cycle (cfgOf : Chan → SensorCfg) (readV : Chan → Except Unit (PF ℚ))
    (write_points : List Observation → Except Unit Unit) : CycleOutcome :=
  match read_soil_sensors cfgOf readV with
  | some data =>
    if data.isEmpty then .readFailed
    else if send_to_influxdb write_points data then .wrote (soil_json_body data)
    else .sendFailed
  | none => .readFailed

/-- The scheduler loop over a finite trace of cycles: each list element is
the external world (device reads and sink transport) offered to one
iteration; the loop body runs once per element, unconditionally proceeding
to the next element whatever the outcome of the previous one. -/
def main_loop
    (cycles : List ((Chan → Except Unit (PF ℚ)) ×
      (List Observation → Except Unit Unit))) : List CycleOutcome :=
  cycles.map fun p => cycle SENSOR_CONFIG p.1 p.2

/-- The module-level mutable state of ads1115_logger.py that survives from
one loop iteration to the next: the SENSOR_CONFIG dict (the only module
global the cycle touches; the code only ever reads it). -/
structure GlobalState where
  sensor_config : Chan → SensorCfg

/-- One loop iteration with the module state threaded explicitly: the body
reads sensor_config and never assigns it, so the state component of the
result is the input state unchanged. -/
def cycleSt (s : GlobalState) (readV : Chan → Except Unit (PF ℚ))
    (write_points : List Observation → Except Unit Unit) :
    GlobalState × CycleOutcome :=
  (s, cycle s.sensor_config readV write_points)

/-- The exp overflow bound: math.exp raises OverflowError exactly when its
finite argument exceeds the natural log of the largest double,
709.782712893384... (idealized here as this decimal literal). -/
def expOverflowBound : ℝ := 709.782712893384

/-- Embedding of math.exp on an idealized Python float: raises
OverflowError (Except.error) when a finite argument exceeds the overflow
bound; exp(+inf) = +inf, exp(-inf) = 0.0, exp(nan) = nan, none of which
raise.  The finite result is idealized as the exact real exponential. -/
noncomputable def pexp (a : PF ℝ) : Except Unit (PF ℝ) :=
  match a with
  | .fin x => if expOverflowBound < x then .error () else .ok (.fin (Real.exp x))
  | .inf => .ok .inf
  | .ninf => .ok (.fin 0)
  | .nan => .ok .nan

/-- Embedding of calculate_vpd (bme280_logger.py, lines 82-103): computes
svp = 0.61078 * exp((17.27 * T) / (T + 237.3)), avp = (h / 100.0) * svp,
vpd = svp - avp, returns round(vpd, 2), and returns None when any step of
the try block raises (the division raises ZeroDivisionError iff the
denominator is finite zero, and exp raises OverflowError past the overflow
bound; no other step can raise). -/
noncomputable def calculate_vpd (temperature humidity : PF ℝ) : Option (PF ℝ) :=
  match pdiv (pmul (.fin 17.27) temperature) (padd temperature (.fin 237.3)) with
  | .error _ => none
  | .ok earg =>
    match pexp earg with
    | .error _ => none
    | .ok expv =>
      let svp := pmul (.fin 0.61078) expv
      match pdiv humidity (.fin 100) with
      | .error _ => none
      | .ok hq => some (pyRound 2 (psub svp (pmul hq svp)))

/-- The dict returned by read_sensor_data (bme280_logger.py, lines
105-128). -/
structure EnvData where
  temperature : PF ℝ
  humidity : PF ℝ
  pressure : PF ℝ
  vpd : Option (PF ℝ)

/-- Embedding of read_sensor_data (bme280_logger.py): when the data-ready
flag is set, read the three raw values, convert pressure from Pa to hPa by
dividing by 100.0 (inside the same try block, so a raised conversion fault
would yield None), compute the VPD, and assemble the dict with each raw
value rounded to 2 decimal places; when data is not ready, return None. -/
noncomputable def read_sensor_data (data_ready : Bool)
    (raw_temperature raw_pressure raw_humidity : PF ℝ) : Option EnvData :=
  if data_ready then
    match pdiv raw_pressure (.fin 100) with
    | .error _ => none
    | .ok pressure =>
      some ⟨pyRound 2 raw_temperature, pyRound 2 raw_humidity,
        pyRound 2 pressure, calculate_vpd raw_temperature raw_humidity⟩
  else none

/-- One InfluxDB point of the environment measurement (real-valued field
payloads); a field value of none is an explicit null, not an omitted
key. -/
structure ObservationR where
  measurement : String
  tags : List (String × String)
  fields : List (String × Option (PF ℝ))

/-- The json_body list built by send_to_influxdb of bme280_logger.py
(lines 133-147): a single point whose vpd field carries the possibly-None
vpd value through as an explicit null. -/
def bme_json_body (d : EnvData) : List ObservationR :=
  [{ measurement := "environment",
     tags := [("location", "growroom"), ("sensor", "bme280")],
     fields := [("temperature", some d.temperature),
                ("humidity", some d.humidity),
                ("pressure", some d.pressure),
                ("vpd", d.vpd)] }]

/-- The Magnus-Tetens saturated vapor pressure formula exactly as the
specification states it: svp = 0.61078 * exp(17.27*T / (T+237.3)). -/
noncomputable def svp_spec (T : ℝ) : ℝ :=
  0.61078 * Real.exp (17.27 * T / (T + 237.3))

section RoundingLemmas

variable {α : Type} [LinearOrderedField α] [FloorRing α]

theorem floor_le_rhe (x : α) : ⌊x⌋ ≤ rhe x := by
  unfold rhe
  split_ifs <;> omega

theorem rhe_le_floor_add_one (x : α) : rhe x ≤ ⌊x⌋ + 1 := by
  unfold rhe
  split_ifs <;> omega

theorem rhe_intCast (k : ℤ) : rhe (k : α) = k := by
  unfold rhe
  rw [Int.floor_intCast]
  simp

theorem rhe_mono {x y : α} (hxy : x ≤ y) : rhe x ≤ rhe y := by
  rcases lt_or_eq_of_le (Int.floor_le_floor hxy) with hlt | heq
  · calc rhe x ≤ ⌊x⌋ + 1 := rhe_le_floor_add_one x
      _ ≤ ⌊y⌋ := by omega
      _ ≤ rhe y := floor_le_rhe y
  · unfold rhe
    rw [← heq]
    have h1 : x - (⌊x⌋ : α) ≤ y - (⌊x⌋ : α) := by linarith
    split_ifs <;> first | rfl | omega | linarith

theorem rhe_eq_of_bounds {x : α} {k : ℤ} (h1 : (k : α) - 1 / 2 < x)
    (h2 : x < (k : α) + 1 / 2) : rhe x = k := by
  rcases le_or_lt (k : α) x with hk | hk
  · have hf : ⌊x⌋ = k := by
      rw [Int.floor_eq_iff]
      exact ⟨hk, by push_cast; linarith⟩
    unfold rhe
    rw [hf]
    have hc : 2 * (x - (k : α)) < 1 := by linarith
    rw [if_pos hc]
  · have hf : ⌊x⌋ = k - 1 := by
      rw [Int.floor_eq_iff]
      push_cast
      constructor <;> linarith
    unfold rhe
    rw [hf]
    have hgt : 1 < 2 * (x - ((k - 1 : ℤ) : α)) := by push_cast; linarith
    have hnlt : ¬2 * (x - ((k - 1 : ℤ) : α)) < 1 := by linarith
    rw [if_neg hnlt, if_pos hgt]
    omega

theorem pyRoundVal_mono (n : ℕ) {x y : α} (hxy : x ≤ y) :
    pyRoundVal n x ≤ pyRoundVal n y := by
  unfold pyRoundVal
  gcongr
  exact_mod_cast rhe_mono (by gcongr <;> positivity)

end RoundingLemmas

/-- The clamp max(0, min(100, z)) of the moisture computation always
produces a finite value in [0, 100], whatever float comes in (including
nan, which both comparisons reject, leaving the bound). -/
theorem clamp_mem (z : PF ℚ) :
    ∃ c : ℚ, pymax (.fin 0) (pymin (.fin 100) z) = .fin c ∧ 0 ≤ c ∧ c ≤ 100 := by
  rcases z with x | _ | _ | _
  · by_cases h1 : x < 100
    · by_cases h2 : 0 < x
      · exact ⟨x, by simp [pymin, pymax, pyLt, h1, h2], le_of_lt h2, le_of_lt h1⟩
      · exact ⟨0, by simp [pymin, pymax, pyLt, h1, h2], le_refl 0, by norm_num⟩
    · exact ⟨100, by simp [pymin, pymax, pyLt, h1], by norm_num, le_refl 100⟩
  · exact ⟨100, by simp [pymin, pymax, pyLt], by norm_num, le_refl 100⟩
  · exact ⟨0, by simp [pymin, pymax, pyLt], le_refl 0, by norm_num⟩
  · exact ⟨100, by simp [pymin, pymax, pyLt], by norm_num, le_refl 100⟩

/-- C4: for every voltage and every calibration pair with dry_voltage and
wet_voltage different, a non-null result of calculate_moisture_percent is
a finite value in the closed interval [0, 100] (the clamp in fact
guarantees this for every input whatsoever, so the hypothesis on the
calibration pair is not even needed). -/
theorem moisture_result_in_range (v d w : PF ℚ) (hne : d ≠ w) (r : PF ℚ)
    (h : calculate_moisture_percent v d w = some r) :
    ∃ x : ℚ, r = .fin x ∧ 0 ≤ x ∧ x ≤ 100 := by
  clear hne
  unfold calculate_moisture_percent at h
  split at h
  · exact absurd h (by simp)
  · obtain ⟨c, hc, hc0, hc100⟩ := clamp_mem (pmul _ (.fin 100))
    rw [hc] at h
    refine ⟨pyRoundVal 1 c, (Option.some_inj.mp h).symm, ?_, ?_⟩
    · have hlo : (0 : ℤ) ≤ rhe ((10 : ℚ) ^ 1 * c) := by
        have := rhe_mono (x := ((0 : ℤ) : ℚ)) (y := (10 : ℚ) ^ 1 * c)
          (by push_cast; nlinarith)
        rwa [rhe_intCast] at this
      unfold pyRoundVal
      exact div_nonneg (by exact_mod_cast hlo) (by norm_num)
    · have hhi : rhe ((10 : ℚ) ^ 1 * c) ≤ 1000 := by
        have := rhe_mono (x := (10 : ℚ) ^ 1 * c) (y := ((1000 : ℤ) : ℚ))
          (by push_cast; nlinarith)
        rwa [rhe_intCast] at this
      unfold pyRoundVal
      rw [div_le_iff (by norm_num)]
      calc ((rhe ((10 : ℚ) ^ 1 * c) : ℤ) : ℚ) ≤ 1000 := by exact_mod_cast hhi
        _ = 100 * 10 ^ 1 := by norm_num

/-- C4 witness: at voltage 2.0 V with the source calibration pair
(2.8, 1.2) the moisture result 50.0 lies in [0, 100]. -/
theorem moisture_result_in_range_witness :
    ∃ x : ℚ, PF.fin 50 = PF.fin x ∧ 0 ≤ x ∧ x ≤ 100 :=
  moisture_result_in_range (.fin 2) (.fin (28/10)) (.fin (12/10))
    (by simp only [ne_eq, PF.fin.injEq]; norm_num)
    (.fin 50)
    (by norm_num [calculate_moisture_percent, pdiv, psub, padd, pneg, pmul,
      pymin, pymax, pyLt, pyRound, pyRoundVal, rhe])

/-- C2 counterexample: a NaN (non-finite) voltage does not make
calculate_moisture_percent return None; the NaN propagates into the clamp,
both comparisons with NaN are false, and the function returns 100.0.  The
claim, instantiated at this input, asserts a None return. -/
theorem moisture_nonfinite_not_null_cex :
    calculate_moisture_percent PF.nan (.fin (28/10)) (.fin (12/10)) =
      some (.fin 100) := by
  norm_num [calculate_moisture_percent, pdiv, psub, padd, pneg, pmul, pymin,
    pymax, pyLt, pyRound, pyRoundVal, rhe]

/-- C2 (amended): calculate_moisture_percent returns None exactly when the
calibration voltages are both finite and equal (the only way the division
can raise ZeroDivisionError); it never raises, and non-finite inputs never
produce None — they propagate through IEEE arithmetic into the clamp and
yield an ordinary clamped value. -/
theorem moisture_null_iff_dry_eq_wet_finite (v d w : PF ℚ) :
    calculate_moisture_percent v d w = none ↔
      ∃ x : ℚ, d = .fin x ∧ w = .fin x := by
  unfold calculate_moisture_percent
  rcases d with a | _ | _ | _ <;> rcases w with b | _ | _ | _
  case fin.fin =>
    by_cases hab : a = b
    · subst hab
      simp [psub, padd, pneg, pdiv]
    · have hne : a + -b ≠ 0 := fun hz => hab (by linarith)
      simp [psub, padd, pneg, pdiv, hne]
      exact fun hba => hab hba.symm
  all_goals simp [psub, padd, pneg, pdiv]

/-- A device world in which the read of channel A0 succeeds (2.0 V) and
the read of channel A1 raises a device fault. -/
def faultyA1Reads : Chan → Except Unit (PF ℚ)
  | .A1 => .error ()
  | _ => .ok (.fin 2)

/-- C1 counterexample: with the source configuration (A0 and A1 enabled),
a device fault on A1 while A0 reads fine makes read_soil_sensors return
None, so the cycle writes no observation at all — in particular no
observation for A0, contrary to the claim instantiated at this input. -/
theorem read_fault_not_isolated_cex :
    read_soil_sensors SENSOR_CONFIG faultyA1Reads = none ∧
    writtenObs (cycle SENSOR_CONFIG faultyA1Reads (fun _ => .ok ())) = [] := by
  constructor <;>
    simp [read_soil_sensors, readLoop, channelOrder, SENSOR_CONFIG,
      faultyA1Reads, cycle, writtenObs]

/-- C1 (amended): a device read fault on one enabled channel aborts the
reads of all the others, because the try block of read_soil_sensors wraps
the whole channel loop: whenever the A0 read succeeds and the A1 read
raises, the function returns None, the cycle produces no observation for
any channel, and the loop iteration ends in the logged read-failure branch
(the process keeps running). -/
theorem read_fault_aborts_all_channels (readV : Chan → Except Unit (PF ℚ))
    (v : PF ℚ) (h0 : readV .A0 = .ok v) (h1 : readV .A1 = .error ())
    (write_points : List Observation → Except Unit Unit) :
    read_soil_sensors SENSOR_CONFIG readV = none ∧
    cycle SENSOR_CONFIG readV write_points = .readFailed := by
  have hr : read_soil_sensors SENSOR_CONFIG readV = none := by
    simp [read_soil_sensors, readLoop, channelOrder, SENSOR_CONFIG, h0, h1]
  exact ⟨hr, by simp [cycle, hr]⟩

/-- C1 witness: the amended theorem applied to the concrete faulty world. -/
theorem read_fault_aborts_all_channels_witness :
    read_soil_sensors SENSOR_CONFIG faultyA1Reads = none ∧
    cycle SENSOR_CONFIG faultyA1Reads (fun _ => .ok ()) = .readFailed :=
  read_fault_aborts_all_channels faultyA1Reads (.fin 2) rfl rfl _

/-- Every entry that the channel loop of read_soil_sensors produces stores
as its voltage field the successfully read raw voltage rounded to 3
decimal places. -/
theorem readLoop_voltage_rounded (cfgOf : Chan → SensorCfg)
    (readV : Chan → Except Unit (PF ℚ)) :
    ∀ (l : List Chan) (res : List (Chan × ChannelData)),
      readLoop cfgOf readV l = .ok res →
      ∀ e ∈ res, ∃ v, readV e.1 = .ok v ∧ e.2.voltage = pyRound 3 v := by
  intro l
  induction l with
  | nil =>
    intro res h e he
    rw [readLoop] at h
    injection h with h
    subst h
    simp at he
  | cons c rest ih =>
    intro res h e he
    rw [readLoop] at h
    split at h
    · rcases hv : readV c with u | voltage
      · rw [hv] at h
        simp at h
      · rw [hv] at h
        rcases ht : readLoop cfgOf readV rest with u | tail
        · rw [ht] at h
          simp at h
        · rw [ht] at h
          simp only [Except.ok.injEq] at h
          subst h
          rcases List.mem_cons.mp he with rfl | hmem
          · exact ⟨voltage, hv, rfl⟩
          · exact ih tail ht e hmem
    · exact ih res h e he

/-- C10: the voltage field placed in every assembled per-channel record is
the successfully read raw voltage rounded to 3 decimal places — and that
rounding is not the identity, so the stored value is in general not the
raw voltage (0.0004 V is stored as 0.0 V). -/
theorem voltage_field_rounded_to_3 :
    (∀ (cfgOf : Chan → SensorCfg) (readV : Chan → Except Unit (PF ℚ))
        (data : List (Chan × ChannelData)),
        read_soil_sensors cfgOf readV = some data →
        ∀ e ∈ data, ∃ v, readV e.1 = .ok v ∧ e.2.voltage = pyRound 3 v) ∧
    pyRound 3 (PF.fin (1/2500) : PF ℚ) ≠ PF.fin (1/2500) := by
  constructor
  · intro cfgOf readV data h e he
    unfold read_soil_sensors at h
    rcases hl : readLoop cfgOf readV channelOrder with u | res
    · rw [hl] at h
      simp at h
    · rw [hl] at h
      simp only [Option.some.injEq] at h
      subst h
      exact readLoop_voltage_rounded cfgOf readV channelOrder res hl e he
  · norm_num [pyRound, pyRoundVal, rhe]

/-- A device world in which every channel reads 0.0004 V. -/
def tinyVoltReads : Chan → Except Unit (PF ℚ) := fun _ => .ok (.fin (1/2500))

/-- The data dict produced by read_soil_sensors in that world: the stored
voltage is the rounded 0.0, not the raw 0.0004. -/
def tinyVoltData : List (Chan × ChannelData) :=
  [(Chan.A0, ⟨"soil_moisture_1", "pot_1", .fin 0, some (.fin 100)⟩),
   (Chan.A1, ⟨"soil_moisture_2", "pot_2", .fin 0, some (.fin 100)⟩)]

/-- C10 witness: the theorem applied to the 0.0004 V world at channel A0. -/
theorem voltage_field_rounded_to_3_witness :
    ∃ v, tinyVoltReads Chan.A0 = .ok v ∧
      (ChannelData.mk "soil_moisture_1" "pot_1" (.fin 0)
        (some (.fin 100))).voltage = pyRound 3 v :=
  voltage_field_rounded_to_3.1 SENSOR_CONFIG tinyVoltReads
    tinyVoltData
    (by norm_num [read_soil_sensors, readLoop, channelOrder, SENSOR_CONFIG,
      tinyVoltReads, tinyVoltData, calculate_moisture_percent,
      pdiv, psub, padd, pneg, pmul, pymin, pymax, pyLt, pyRound, pyRoundVal,
      rhe])
    (Chan.A0, ⟨"soil_moisture_1", "pot_1", .fin 0, some (.fin 100)⟩)
    (by simp [tinyVoltData])

/-- Every channel of the traversed list that is enabled in the config gets
an entry in a successful result of the channel loop, whatever the computed
moisture value is (in particular when it is None). -/
theorem readLoop_mem_of_enabled (cfgOf : Chan → SensorCfg)
    (readV : Chan → Except Unit (PF ℚ)) :
    ∀ (l : List Chan) (res : List (Chan × ChannelData)),
      readLoop cfgOf readV l = .ok res →
      ∀ c ∈ l, (cfgOf c).enabled = true → ∃ cd, (c, cd) ∈ res := by
  intro l
  induction l with
  | nil =>
    intro res h c hc
    simp at hc
  | cons c0 rest ih =>
    intro res h c hc hen
    rw [readLoop] at h
    split at h
    · rcases hv : readV c0 with u | voltage
      · rw [hv] at h
        simp at h
      · rw [hv] at h
        rcases ht : readLoop cfgOf readV rest with u | tail
        · rw [ht] at h
          simp at h
        · rw [ht] at h
          simp only [Except.ok.injEq] at h
          subst h
          rcases List.mem_cons.mp hc with rfl | hmem
          · exact ⟨_, List.mem_cons_self _ _⟩
          · obtain ⟨cd, hcd⟩ := ih tail ht c hmem hen
            exact ⟨cd, List.mem_cons_of_mem _ hcd⟩
    · rename_i hnen
      rcases List.mem_cons.mp hc with rfl | hmem
      · exact absurd hen hnen
      · exact ih res h c hmem hen

/-- Division of any idealized float by the literal 100 never raises. -/
theorem pdiv_by_100_ok {α : Type} [LinearOrderedField α] (a : PF α) :
    ∃ q, pdiv a (.fin (100 : α)) = .ok q := by
  cases a <;> simp [pdiv] <;> norm_num

/-- C7: a null derived metric never drops the observation.  On the soil
side, every enabled channel of a successful read gets an entry whatever
its moisture value is, and the json body built for the sink carries each
entry's moisture_percent value through as-is — an explicit null when it is
None, never an omitted field.  On the environment side, a ready sensor
always yields an assembled dict whose vpd slot is exactly the possibly-None
calculate_vpd result, and the json body carries that vpd value through
as-is. -/
theorem null_metric_still_observed :
    (∀ (cfgOf : Chan → SensorCfg) (readV : Chan → Except Unit (PF ℚ))
        (data : List (Chan × ChannelData)),
        read_soil_sensors cfgOf readV = some data →
        ∀ c : Chan, (cfgOf c).enabled = true → ∃ cd, (c, cd) ∈ data) ∧
    (∀ data : List (Chan × ChannelData), ∀ e ∈ data,
        ∃ obs ∈ soil_json_body data,
          ("moisture_percent", e.2.moisture_percent) ∈ obs.fields) ∧
    (∀ t p h : PF ℝ, ∃ d, read_sensor_data true t p h = some d ∧
        d.vpd = calculate_vpd t h) ∧
    (∀ d : EnvData, ∃ obs ∈ bme_json_body d, ("vpd", d.vpd) ∈ obs.fields) := by
  refine ⟨?_, ?_, ?_, ?_⟩
  · intro cfgOf readV data h c hen
    unfold read_soil_sensors at h
    rcases hl : readLoop cfgOf readV channelOrder with u | res
    · rw [hl] at h
      simp at h
    · rw [hl] at h
      simp only [Option.some.injEq] at h
      subst h
      refine readLoop_mem_of_enabled cfgOf readV channelOrder res hl c ?_ hen
      cases c <;> simp [channelOrder]
  · intro data e he
    refine ⟨_, List.mem_map_of_mem _ he, ?_⟩
    simp
  · intro t p h
    obtain ⟨q, hq⟩ := pdiv_by_100_ok p
    refine ⟨⟨pyRound 2 t, pyRound 2 h, pyRound 2 q, calculate_vpd t h⟩, ?_, rfl⟩
    simp [read_sensor_data, hq]
  · intro d
    refine ⟨_, List.mem_singleton_self _, ?_⟩
    simp [bme_json_body]

/-- A config table with an undefined calibration pair (dry equal to wet)
on channel A0 and everything else disabled. -/
def equalCalCfg : Chan → SensorCfg
  | .A0 => ⟨true, "s1", "p1", .fin 2, .fin 2⟩
  | _ => ⟨false, "u", "u", .fin 2, .fin 2⟩

/-- The data dict read under that config with a 2.0 V reading: the
moisture metric of A0 is None, yet the entry is assembled. -/
def equalCalData : List (Chan × ChannelData) :=
  [(Chan.A0, ⟨"s1", "p1", .fin 2, none⟩)]

/-- C7 witness: with dry equal to wet the moisture metric is null, yet the
channel entry exists and the json body carries the explicit null
moisture_percent field. -/
theorem null_metric_still_observed_witness :
    (∃ cd, (Chan.A0, cd) ∈ equalCalData) ∧
    ∃ obs ∈ soil_json_body equalCalData,
      ("moisture_percent", (none : Option (PF ℚ))) ∈ obs.fields :=
  ⟨null_metric_still_observed.1 equalCalCfg (fun _ => .ok (.fin 2))
      equalCalData
      (by norm_num [read_soil_sensors, readLoop, channelOrder, equalCalCfg,
        equalCalData, calculate_moisture_percent, pdiv, psub, padd, pneg,
        pyRound, pyRoundVal, rhe])
      Chan.A0 rfl,
   null_metric_still_observed.2.1 equalCalData
      (Chan.A0, ⟨"s1", "p1", .fin 2, none⟩) (by simp [equalCalData])⟩

/-- C8: the sink adapter returns False (it never raises — it is a total
Bool-valued function) whenever the transport write faults, and the
scheduler loop treats every cycle independently: it always proceeds to the
next element of the trace, whatever the previous outcome, processing the
whole trace. -/
theorem sink_fault_returns_false_loop_continues :
    (∀ (write_points : List Observation → Except Unit Unit)
        (data : List (Chan × ChannelData)),
        write_points (soil_json_body data) = .error () →
        send_to_influxdb write_points data = false) ∧
    (∀ p rest, main_loop (p :: rest) =
        cycle SENSOR_CONFIG p.1 p.2 :: main_loop rest) ∧
    (∀ cycles, (main_loop cycles).length = cycles.length) := by
  refine ⟨?_, ?_, ?_⟩
  · intro wp data hw
    unfold send_to_influxdb
    rw [hw]
  · intro p rest
    rfl
  · intro cycles
    simp [main_loop]

/-- C8 witness: a transport that always faults makes the adapter return
False on the empty batch. -/
theorem sink_fault_returns_false_witness :
    send_to_influxdb (fun _ => .error ()) [] = false :=
  sink_fault_returns_false_loop_continues.1 (fun _ => .error ()) [] rfl

/-- C9: the cycle is deterministic and stateless.  The only module-level
state the loop body of ads1115_logger.py can observe across iterations is
the SENSOR_CONFIG dict, and the body only reads it: with that state
threaded explicitly, a cycle leaves the state exactly as it found it, and
a repeated cycle on the state left behind by the first, given identical
raw inputs, produces an identical outcome — including every derived
observation field value. -/
theorem cycle_deterministic_stateless :
    ∀ (s : GlobalState) (readV : Chan → Except Unit (PF ℚ))
      (write_points : List Observation → Except Unit Unit),
      (cycleSt s readV write_points).1 = s ∧
      (cycleSt (cycleSt s readV write_points).1 readV write_points).2 =
        (cycleSt s readV write_points).2 :=
  fun _ _ _ => ⟨rfl, rfl⟩

/-- Evaluation of calculate_vpd on finite inputs with temperature above
the singularity: no step raises (the Magnus exponent is below 17.27, far
below the overflow bound) and the result is the rounded spec formula. -/
theorem calculate_vpd_eval (T h : ℝ) (hT : -237.3 < T) :
    calculate_vpd (.fin T) (.fin h) =
      some (.fin (pyRoundVal 2 (svp_spec T - h / 100 * svp_spec T))) := by
  have hdenpos : 0 < T + 237.3 := by linarith
  have hden : ¬T + 237.3 = 0 := by linarith
  have harg : ¬expOverflowBound < 17.27 * T / (T + 237.3) := by
    push_neg
    have h1 : 17.27 * T / (T + 237.3) < 17.27 := by
      rw [div_lt_iff hdenpos]
      nlinarith
    have h2 : (17.27 : ℝ) ≤ expOverflowBound := by norm_num [expOverflowBound]
    linarith
  have h100 : ¬(100 : ℝ) = 0 := by norm_num
  simp only [calculate_vpd, pmul, padd, pdiv, if_neg hden, pexp,
    if_neg harg, if_neg h100, psub, pneg, pyRound, Option.some.injEq,
    PF.fin.injEq]
  unfold svp_spec
  congr 1

/-- Lower bound for exp(3389/5246) from the degree-6 Taylor polynomial. -/
theorem exp_x0_gt : (1.9079 : ℝ) < Real.exp (3389/5246) := by
  have hge := Real.sum_le_exp_of_nonneg (x := (3389/5246 : ℝ)) (by norm_num) 7
  refine lt_of_lt_of_le ?_ hge
  norm_num [Finset.sum_range_succ, Finset.sum_range_zero, Nat.factorial]

/-- Upper bound for exp(3389/5246) from the degree-6 Taylor polynomial
with the standard remainder estimate. -/
theorem exp_x0_lt : Real.exp (3389/5246) < 1.90793 := by
  have hle := @Real.exp_bound' (3389/5246 : ℝ) (by norm_num) (by norm_num) 7
    (by norm_num)
  refine lt_of_le_of_lt hle ?_
  norm_num [Finset.sum_range_succ, Finset.sum_range_zero, Nat.factorial]

/-- One hundred times the VPD expression at 25 degrees and 50 percent
humidity lies strictly between 157.5 and 158.5, so it rounds to 158. -/
theorem svp25_bounds :
    157.5 < 100 * (svp_spec 25 - 50 / 100 * svp_spec 25) ∧
    100 * (svp_spec 25 - 50 / 100 * svp_spec 25) < 158.5 := by
  have harg : (17.27 * 25 : ℝ) / (25 + 237.3) = 1 + 3389/5246 := by norm_num
  have hsplit : Real.exp ((17.27 * 25 : ℝ) / (25 + 237.3)) =
      Real.exp 1 * Real.exp (3389/5246) := by
    rw [harg, Real.exp_add]
  have he1pos : (0 : ℝ) < Real.exp 1 := Real.exp_pos 1
  have hxpos : (0 : ℝ) < Real.exp (3389/5246) := Real.exp_pos _
  have hlow : (2.7182818283 : ℝ) * 1.9079 < Real.exp 1 * Real.exp (3389/5246) :=
    mul_lt_mul Real.exp_one_gt_d9 exp_x0_gt.le (by norm_num) he1pos.le
  have hup : Real.exp 1 * Real.exp (3389/5246) < 2.7182818286 * 1.90793 :=
    mul_lt_mul' Real.exp_one_lt_d9.le exp_x0_lt hxpos.le (by norm_num)
  unfold svp_spec
  rw [hsplit]
  constructor <;> nlinarith [hlow, hup]

/-- C5: on every finite temperature above the Magnus singularity and every
finite humidity, calculate_vpd returns exactly the spec formula
round(svp - (h/100)*svp, 2) with svp = 0.61078*exp(17.27*T/(T+237.3));
in particular calculate_vpd(25.0, 50) = 1.58 kPa. -/
theorem vpd_matches_magnus_formula :
    (∀ T h : ℝ, -237.3 < T →
      calculate_vpd (.fin T) (.fin h) =
        some (.fin (pyRoundVal 2 (svp_spec T - h / 100 * svp_spec T)))) ∧
    calculate_vpd (.fin 25) (.fin 50) = some (.fin 1.58) := by
  refine ⟨fun T h hT => calculate_vpd_eval T h hT, ?_⟩
  rw [calculate_vpd_eval 25 50 (by norm_num)]
  have hb := svp25_bounds
  have h100 : ((10 : ℝ) ^ 2) = 100 := by norm_num
  have hr : rhe ((10 : ℝ) ^ 2 * (svp_spec 25 - 50 / 100 * svp_spec 25)) =
      158 := by
    apply rhe_eq_of_bounds
    · rw [h100]
      push_cast
      linarith [hb.1]
    · rw [h100]
      push_cast
      linarith [hb.2]
  simp only [Option.some.injEq, PF.fin.injEq]
  unfold pyRoundVal
  rw [hr]
  norm_num

/-- C5 witness: the general formula instantiated at 25 degrees and 50
percent humidity. -/
theorem vpd_matches_magnus_formula_witness :
    calculate_vpd (.fin 25) (.fin 50) =
      some (.fin (pyRoundVal 2 (svp_spec 25 - 50 / 100 * svp_spec 25))) :=
  vpd_matches_magnus_formula.1 25 50 (by norm_num)

/-- The Magnus exponent 17.27*T/(T+237.3) is monotone in the temperature
above the singularity. -/
theorem magnus_arg_mono {T1 T2 : ℝ} (h1 : -237.3 < T1) (h12 : T1 ≤ T2) :
    17.27 * T1 / (T1 + 237.3) ≤ 17.27 * T2 / (T2 + 237.3) := by
  have hd1 : 0 < T1 + 237.3 := by linarith
  have hd2 : 0 < T2 + 237.3 := by linarith
  rw [div_le_div_iff hd1 hd2]
  nlinarith

/-- C6: at any fixed humidity in [0, 100], calculate_vpd is monotonically
non-decreasing in the temperature across the 0 to 40 degree range: both
cycles produce non-null values and the lower temperature never yields the
larger VPD. -/
theorem vpd_monotone_in_temperature (h T1 T2 : ℝ)
    (hh0 : 0 ≤ h) (hh1 : h ≤ 100) (hT1 : 0 ≤ T1) (h12 : T1 ≤ T2)
    (hT2 : T2 ≤ 40) :
    ∃ v1 v2 : ℝ, calculate_vpd (.fin T1) (.fin h) = some (.fin v1) ∧
      calculate_vpd (.fin T2) (.fin h) = some (.fin v2) ∧ v1 ≤ v2 := by
  have hgt1 : (-237.3 : ℝ) < T1 := by linarith
  have hgt2 : (-237.3 : ℝ) < T2 := by linarith
  refine ⟨_, _, calculate_vpd_eval T1 h hgt1, calculate_vpd_eval T2 h hgt2, ?_⟩
  apply pyRoundVal_mono
  have hsvp : svp_spec T1 ≤ svp_spec T2 := by
    unfold svp_spec
    have hexp := Real.exp_le_exp.mpr (magnus_arg_mono hgt1 h12)
    linarith
  have hc : 0 ≤ (svp_spec T2 - svp_spec T1) * (1 - h / 100) :=
    mul_nonneg (sub_nonneg.mpr hsvp) (by linarith)
  nlinarith [hc]

/-- C6 witness: humidity 50 percent, temperatures 20 and 25 degrees. -/
theorem vpd_monotone_in_temperature_witness :
    ∃ v1 v2 : ℝ, calculate_vpd (.fin 20) (.fin 50) = some (.fin v1) ∧
      calculate_vpd (.fin 25) (.fin 50) = some (.fin v2) ∧ v1 ≤ v2 :=
  vpd_monotone_in_temperature 50 20 25 (by norm_num) (by norm_num)
    (by norm_num) (by norm_num) (by norm_num)

/-- C3 counterexample: the claimed null condition is wrong in both
directions.  At the finite temperature -1000 (which is below -237.3, where
the claim demands null) the Magnus exponent is about 22.6, exp does not
overflow, and the function returns a non-null value; at -238 (adjacent to
the singularity, where the equality reading of the claim demands non-null)
the exponent is about 5872, exp overflows, and the function returns None;
and at a NaN temperature (non-finite, where the claim demands null) the
NaN propagates through every step without raising and the function returns
NaN, not None. -/
theorem vpd_null_condition_cex :
    calculate_vpd (.fin (-1000)) (.fin 50) ≠ none ∧
    calculate_vpd (.fin (-238)) (.fin 50) = none ∧
    calculate_vpd PF.nan (.fin 50) = some PF.nan := by
  refine ⟨?_, ?_, ?_⟩
  · norm_num [calculate_vpd, pmul, padd, pdiv, pexp, psub, pneg, pyRound,
      expOverflowBound]
    exact Option.some_ne_none _
  · norm_num [calculate_vpd, pmul, padd, pdiv, pexp, expOverflowBound]
  · norm_num [calculate_vpd, pmul, padd, pdiv, pexp, psub, pneg, pyRound]

/-- C3 (amended): calculate_vpd returns None exactly when the temperature
is a finite value t that either equals -237.3 (the division raises
ZeroDivisionError) or drives the Magnus exponent 17.27*t/(t+237.3) past
the exp overflow bound (math.exp raises OverflowError; this happens only
in a narrow band of temperatures just below -237.3).  In every other case
the function returns a non-null value: non-finite temperatures or
humidities propagate as NaN or infinite results without raising, and every
finite temperature outside the two exception conditions (including all
temperatures well below -237.3) yields a number. -/
theorem vpd_none_iff_singularity_or_overflow (T h : PF ℝ) :
    calculate_vpd T h = none ↔
      ∃ t : ℝ, T = .fin t ∧ (t + 237.3 = 0 ∨
        (t + 237.3 ≠ 0 ∧ expOverflowBound < 17.27 * t / (t + 237.3))) := by
  obtain ⟨q, hq⟩ := pdiv_by_100_ok (α := ℝ) h
  rcases T with t | _ | _ | _
  · by_cases hz : t + 237.3 = 0
    · simp only [calculate_vpd, pmul, padd, pdiv, if_pos hz]
      exact ⟨fun _ => ⟨t, rfl, Or.inl hz⟩, fun _ => trivial⟩
    · by_cases ho : expOverflowBound < 17.27 * t / (t + 237.3)
      · simp only [calculate_vpd, pmul, padd, pdiv, if_neg hz, pexp,
          if_pos ho]
        exact ⟨fun _ => ⟨t, rfl, Or.inr ⟨hz, ho⟩⟩, fun _ => trivial⟩
      · simp only [calculate_vpd, pmul, padd, pdiv, if_neg hz, pexp,
          if_neg ho, hq]
        simp [hz, ho]
  · norm_num [calculate_vpd, pmul, padd, pdiv, pexp]
    simp
  · norm_num [calculate_vpd, pmul, padd, pdiv, pexp]
    simp
  · norm_num [calculate_vpd, pmul, padd, pdiv, pexp]
    simp
